import Mathlib

/-!
Verification development for the lead-generation enrichment pipeline
(`src/pipeline/enrichment.py` and the services it orchestrates).

The Python code is shallowly embedded: external HTTP services (company
directory, website scraper, contact directory, message composer, sheets
endpoint) are modelled as oracles supplying the outcome each call would
have produced, exceptions are modelled with `Except`, and the pipeline
control flow is translated statement by statement.  Python strings that
the code inspects character by character are modelled as `List Char`.
-/

/-- A Python exception value (anything deriving from `Exception`).
The constructors name the exception classes that appear in the code. -/
inductive PyExc where
  | hunterError (msg : String)
  | apolloApiError (msg : String)
  | valueError (msg : String)
  | exc (msg : String)
deriving DecidableEq, Repr

/-- The message text `str(e)` of an exception. -/
def PyExc.message : PyExc → String
  | .hunterError m => m
  | .apolloApiError m => m
  | .valueError m => m
  | .exc m => m

/-- `EnrichmentError` from `src/pipeline/enrichment.py`. -/
structure EnrichmentError where
  msg : String
deriving DecidableEq, Repr

/-- `SearchCriteria` dataclass from `src/schemas/schemas.py`. -/
structure SearchCriteria where
  size_range : String
  industry : String
  location : Option String := none
deriving DecidableEq, Repr

/-- `Company` dataclass from `src/schemas/schemas.py`.  `website` is
`Optional[str]` defaulting to `None`. -/
structure Company where
  name : String
  website : Option String := none
  employee_count : Option Int := none
  industry : Option String := none
  location : Option String := none
deriving DecidableEq, Repr

/-- `HardwareNeeds` model from `src/services/scraper_service.py`:
five independent boolean flags, all defaulting to false. -/
structure HardwareNeeds where
  workstations : Bool := false
  servers : Bool := false
  networking : Bool := false
  storage : Bool := false
  peripherals : Bool := false
deriving DecidableEq, Repr

/-- `CompanyInsights` model from `src/services/scraper_service.py`. -/
structure CompanyInsights where
  business_summary : String
  company_size_indicator : String
  key_insights : List String
  hardware_opportunity : HardwareNeeds := {}
  decision_maker_hint : String := ""
  personalization_hook : String
deriving DecidableEq, Repr

/-- `ContactInfo` model from `src/services/hunter_service.py`
(after `model_dump()` it is the contact dict stored on a lead). -/
structure ContactInfo where
  email : String
  first_name : String := ""
  last_name : String := ""
  position : String := ""
  department : String := ""
  verified : Bool := false
deriving DecidableEq, Repr

/-- `OutreachMessage` model from `src/services/ai_service.py`.  The text
fields are modelled as character lists because `format_email` and the
pipeline's subject-line extraction inspect them character by character. -/
structure OutreachMessage where
  subject_line : List Char
  greeting : List Char
  opening : List Char
  value_proposition : List Char
  specific_offer : List Char
  call_to_action : List Char
  closing : List Char
deriving DecidableEq, Repr

/-- The fixed signature block appended by `OutreachMessage.format_email`. -/
def signatureBlock : List Char :=
  ("\n\nBest regards,\nJay Arora\nHardware Solutions Specialist\nNewTech Computers\n+1 (619) 200-0000 | jay@newtechcomputers.com").toList

/-- `OutreachMessage.format_email` from `src/services/ai_service.py`:
the seven fields joined with blank lines, with `Subject: ` in front and
the fixed signature block appended. -/
def format_email (m : OutreachMessage) : List Char :=
  ("Subject: ").toList ++ m.subject_line
    ++ ("\n\n").toList ++ m.greeting
    ++ ("\n\n").toList ++ m.opening
    ++ ("\n\n").toList ++ m.value_proposition
    ++ ("\n\n").toList ++ m.specific_offer
    ++ ("\n\n").toList ++ m.call_to_action
    ++ ("\n\n").toList ++ m.closing
    ++ signatureBlock

/-- `Lead` dataclass from `src/schemas/schemas.py`.  `insights` holds the
scraper's record (the Python code stores its `model_dump()` dict),
`personalized_message` the formatted email text, `contacts` the contact
dicts. -/
structure Lead where
  company : Company
  insights : CompanyInsights
  personalized_message : List Char
  contacts : List ContactInfo
deriving DecidableEq, Repr

/-- Truth value of `company.website` in Python (`if not company.website`):
`None` and the empty string are falsy. -/
def truthyWebsite (c : Company) : Bool :=
  match c.website with
  | none => false
  | some s => !s.isEmpty

/-- The website string a company contributes to downstream calls
(`company.website` once known truthy; `""` stands for the falsy cases). -/
def websiteStr (c : Company) : String :=
  match c.website with
  | none => ""
  | some s => s

/-- The external collaborators of `LeadEnrichmentPipeline.process_leads`,
as oracles giving the outcome each call would produce.  An `Except.error`
means the call raised that exception. -/
structure PipelineEnv where
  find_companies : SearchCriteria → Except PyExc (List Company)
  scrape_website : String → Except PyExc CompanyInsights
  get_all_contacts : String → Except PyExc (List ContactInfo)
  generate_message : Company → CompanyInsights → Except PyExc OutreachMessage

/-- The per-company body of the loop in `process_leads`
(`src/pipeline/enrichment.py` lines 71-116): skip when the website is
falsy; scrape; contact lookup with every exception caught and degraded to
zero contacts; message generation; lead assembly.  Any exception that
escapes a stage other than the guarded contact lookup hits the
per-company `except Exception: continue`, so the company yields `none`. -/
def process_company (env : PipelineEnv) (c : Company) : Option Lead :=
  if !truthyWebsite c then none
  else
    match env.scrape_website (websiteStr c) with
    | .error _ => none
    | .ok insights =>
      let contacts : List ContactInfo :=
        match env.get_all_contacts (websiteStr c) with
        | .error _ => []
        | .ok cs => cs
      match env.generate_message c insights with
      | .error _ => none
      | .ok message =>
        some { company := c
               insights := insights
               personalized_message := format_email message
               contacts := contacts }

/-- `LeadEnrichmentPipeline.process_leads` from
`src/pipeline/enrichment.py`: directory lookup, empty-result early
return, truncation to the first `max_leads` companies, per-company
processing with failures absorbed, and the outer
`except Exception: raise EnrichmentError(...)` which — since the
loop body catches every per-company exception — fires exactly when the
directory lookup raises. -/
def process_leads (env : PipelineEnv) (criteria : SearchCriteria)
    (max_leads : Nat) : Except EnrichmentError (List Lead) :=
  match env.find_companies criteria with
  | .error e => .error ⟨"Pipeline failed: " ++ e.message⟩
  | .ok companies =>
    if companies.isEmpty then .ok []
    else .ok ((companies.take max_leads).filterMap (process_company env))

/-- A company's processing hit an unrecoverable stage error: the scrape
call or the message-generation call raised (contact-lookup errors are
recoverable and never exclude a company). -/
def stage_failure (env : PipelineEnv) (c : Company) : Bool :=
  match env.scrape_website (websiteStr c) with
  | .error _ => true
  | .ok insights =>
    match env.generate_message c insights with
    | .error _ => true
    | .ok _ => false

lemma process_leads_ok (env : PipelineEnv) (criteria : SearchCriteria)
    (n : Nat) (companies : List Company)
    (h : env.find_companies criteria = .ok companies) :
    process_leads env criteria n
      = .ok ((companies.take n).filterMap (process_company env)) := by
  unfold process_leads
  rw [h]
  by_cases hc : companies.isEmpty
  · rw [List.isEmpty_iff] at hc
    subst hc
    simp
  · simp [hc]

lemma process_company_company (env : PipelineEnv) (c : Company) (l : Lead)
    (h : process_company env c = some l) : l.company = c := by
  unfold process_company at h
  by_cases hw : truthyWebsite c
  · simp [hw] at h
    rcases hs : env.scrape_website (websiteStr c) with e | insights <;> rw [hs] at h
    · simp at h
    · simp at h
      rcases hg : env.generate_message c insights with e | m <;> rw [hg] at h
      · simp at h
      · simp at h
        rw [← h]
  · simp [hw] at h

lemma process_company_isSome (env : PipelineEnv) (c : Company) :
    (process_company env c).isSome
      = (truthyWebsite c && !stage_failure env c) := by
  unfold process_company stage_failure
  by_cases hw : truthyWebsite c
  · simp [hw]
    rcases hs : env.scrape_website (websiteStr c) with e | insights
    · simp
    · simp
      rcases hg : env.generate_message c insights with e | m <;> simp
  · simp [hw]

lemma process_company_none_of_not_truthy (env : PipelineEnv) (c : Company)
    (h : truthyWebsite c = false) : process_company env c = none := by
  unfold process_company
  simp [h]

/-- Sample insight record used to instantiate the oracles concretely. -/
def insightsA : CompanyInsights :=
  { business_summary := "Makes widgets"
    company_size_indicator := "small"
    key_insights := ["growing fast"]
    personalization_hook := "widgets" }

/-- Sample outreach message used to instantiate the oracles concretely. -/
def messageA : OutreachMessage :=
  { subject_line := ("Hardware for Acme").toList
    greeting := ("Hello,").toList
    opening := ("We saw your site.").toList
    value_proposition := ("Reliable IT matters.").toList
    specific_offer := ("Workstations and servers.").toList
    call_to_action := ("Open to a quick call?").toList
    closing := ("Thanks for your time.").toList }

def acme : Company :=
  { name := "Acme", website := some "acme.com", employee_count := some 50
    industry := some "Software", location := some "NY" }

def beta : Company := { name := "Beta", website := some "beta.com" }

def badCo : Company := { name := "Bad", website := some "bad.com" }

def noWebCo : Company := { name := "NoWeb" }

def crit0 : SearchCriteria :=
  { size_range := "50-200", industry := "software", location := some "india" }

/-- An environment in which every collaborator succeeds and the directory
returns the given companies. -/
def okEnv (companies : List Company) : PipelineEnv :=
  { find_companies := fun _ => .ok companies
    scrape_website := fun _ => .ok insightsA
    get_all_contacts := fun _ => .ok []
    generate_message := fun _ _ => .ok messageA }

/-- An environment in which scraping `bad.com` raises but everything else
succeeds. -/
def envMixed : PipelineEnv :=
  { find_companies := fun _ => .ok [acme, badCo]
    scrape_website := fun w =>
      if w = "acme.com" then .ok insightsA else .error (.exc "boom")
    get_all_contacts := fun _ => .ok []
    generate_message := fun _ _ => .ok messageA }

/-- The lead the pipeline assembles for `acme` under the sample oracles. -/
def leadAcme : Lead :=
  { company := acme
    insights := insightsA
    personalized_message := format_email messageA
    contacts := [] }

/-- C1: two-tier failure semantics of `process_leads`.  The call returns
an error exactly when the initial company-directory lookup raised (and
that error is the single pipeline-level `EnrichmentError` wrapping it);
whenever the directory lookup succeeds, every company whose per-company
processing succeeds contributes its lead to a successfully returned list,
no matter which exceptions the other companies' processing raised. -/
theorem c1_two_tier_failure_semantics (env : PipelineEnv)
    (criteria : SearchCriteria) (n : Nat) :
    ((∃ err, process_leads env criteria n = .error err) ↔
      (∃ e, env.find_companies criteria = .error e)) ∧
    (∀ companies, env.find_companies criteria = .ok companies →
      ∀ c ∈ companies.take n, ∀ l, process_company env c = some l →
        ∃ out, process_leads env criteria n = .ok out ∧ l ∈ out) := by
  constructor
  · constructor
    · rintro ⟨err, herr⟩
      rcases hf : env.find_companies criteria with e | companies
      · exact ⟨e, rfl⟩
      · rw [process_leads_ok env criteria n companies hf] at herr
        simp at herr
    · rintro ⟨e, he⟩
      refine ⟨⟨"Pipeline failed: " ++ e.message⟩, ?_⟩
      unfold process_leads
      rw [he]
  · intro companies hf c hc l hl
    refine ⟨(companies.take n).filterMap (process_company env),
      process_leads_ok env criteria n companies hf, ?_⟩
    exact List.mem_filterMap.mpr ⟨c, hc, hl⟩

theorem c1_two_tier_failure_semantics_witness :
    ∃ out, process_leads envMixed crit0 2 = .ok out ∧ leadAcme ∈ out :=
  (c1_two_tier_failure_semantics envMixed crit0 2).2 [acme, badCo] rfl
    acme (by decide) leadAcme (by rfl)

lemma filterMap_process_company_sublist (env : PipelineEnv)
    (l : List Company) :
    List.Sublist ((l.filterMap (process_company env)).map Lead.company) l := by
  induction l with
  | nil => simp
  | cons c rest ih =>
    rcases h : process_company env c with _ | lead
    · rw [List.filterMap_cons_none h]
      exact ih.cons c
    · rw [List.filterMap_cons_some h]
      rw [List.map_cons, process_company_company env c lead h]
      exact ih.cons₂ c

/-- C4: order preservation.  `process_leads` truncates the directory list
to its first `max_leads` entries, and the companies of the returned leads
form an order-preserving subsequence of that truncated list (no
re-ranking). -/
theorem c4_order_preservation (env : PipelineEnv)
    (criteria : SearchCriteria) (n : Nat) (companies : List Company)
    (out : List Lead) (h1 : env.find_companies criteria = .ok companies)
    (h2 : process_leads env criteria n = .ok out) :
    List.Sublist (out.map Lead.company) (companies.take n) := by
  have h3 := process_leads_ok env criteria n companies h1
  rw [h2] at h3
  have h4 : out = (companies.take n).filterMap (process_company env) :=
    Except.ok.inj h3
  rw [h4]
  exact filterMap_process_company_sublist env (companies.take n)

theorem c4_order_preservation_witness :
    List.Sublist (([leadAcme].map Lead.company)) ([acme, badCo].take 2) :=
  c4_order_preservation envMixed crit0 2 [acme, badCo] [leadAcme] rfl
    (by rfl)

/-- C2 counterexample: the membership biconditional quantified over
*every* company returned by the directory (as the claim states it) fails,
because `process_leads` truncates to the first `max_leads` entries before
processing.  With the directory returning `[acme, beta]`, every stage
succeeding, and `max_leads = 1`, company `beta` has a non-empty website
and no stage error, yet no lead for it is in the output. -/
theorem c2_output_membership_counterexample :
    ¬ (∀ companies out,
        (okEnv [acme, beta]).find_companies crit0 = .ok companies →
        process_leads (okEnv [acme, beta]) crit0 1 = .ok out →
        ∀ c ∈ companies,
          ((∃ l ∈ out, l.company = c) ↔
            (truthyWebsite c = true ∧
              stage_failure (okEnv [acme, beta]) c = false))) := by
  intro h
  have h2 := h [acme, beta] [leadAcme] rfl (by rfl) beta (by decide)
  have h4 := h2.mpr ⟨rfl, rfl⟩
  obtain ⟨l, hl, hc⟩ := h4
  simp at hl
  subst hl
  exact absurd hc (by decide)

/-- C2 (amended): restricted to the first `max_leads` companies of the
directory result, a lead for a company is in the output exactly when its
website is non-empty and neither the scrape stage nor the
message-generation stage raised; moreover a company with an empty or
absent website never appears in the output at all. -/
theorem c2_output_membership (env : PipelineEnv)
    (criteria : SearchCriteria) (n : Nat) (companies : List Company)
    (out : List Lead) (h1 : env.find_companies criteria = .ok companies)
    (h2 : process_leads env criteria n = .ok out) :
    (∀ c ∈ companies.take n,
      ((∃ l ∈ out, l.company = c) ↔
        (truthyWebsite c = true ∧ stage_failure env c = false))) ∧
    (∀ c : Company, truthyWebsite c = false → ∀ l ∈ out, l.company ≠ c) := by
  have hout := process_leads_ok env criteria n companies h1
  rw [h2] at hout
  have h4 : out = (companies.take n).filterMap (process_company env) :=
    Except.ok.inj hout
  subst h4
  constructor
  · intro c hc
    constructor
    · rintro ⟨l, hl, hlc⟩
      obtain ⟨c', hc', hsome⟩ := List.mem_filterMap.mp hl
      have hcomp := process_company_company env c' l hsome
      have hcc : c' = c := by rw [← hlc, hcomp]
      subst hcc
      have hs : (process_company env c').isSome = true := by rw [hsome]; rfl
      rw [process_company_isSome] at hs
      obtain ⟨hw, hf⟩ := Bool.and_eq_true_iff.mp hs
      exact ⟨hw, by simpa using hf⟩
    · rintro ⟨hw, hf⟩
      have hs : (process_company env c).isSome = true := by
        rw [process_company_isSome, hw, hf]; rfl
      obtain ⟨l, hl⟩ := Option.isSome_iff_exists.mp hs
      exact ⟨l, List.mem_filterMap.mpr ⟨c, hc, hl⟩,
        process_company_company env c l hl⟩
  · intro c hw l hl heq
    obtain ⟨c', hc', hsome⟩ := List.mem_filterMap.mp hl
    have hcomp := process_company_company env c' l hsome
    have hcc : c' = c := by rw [← heq, hcomp]
    subst hcc
    have hs : (process_company env c').isSome = true := by rw [hsome]; rfl
    rw [process_company_isSome, hw] at hs
    simp at hs

theorem c2_output_membership_witness :
    ∃ l ∈ [leadAcme], l.company = acme :=
  ((c2_output_membership (okEnv [acme, beta]) crit0 1 [acme, beta]
      [leadAcme] rfl (by rfl)).1 acme (by decide)).mpr ⟨rfl, rfl⟩

lemma filterMap_length_eq_countP (env : PipelineEnv) (l : List Company)
    (h : ∀ c ∈ l, stage_failure env c = false) :
    (l.filterMap (process_company env)).length
      = l.countP (fun c => truthyWebsite c) := by
  induction l with
  | nil => simp
  | cons c rest ih =>
    have hc := h c (List.mem_cons_self c rest)
    have hr : ∀ x ∈ rest, stage_failure env x = false :=
      fun x hx => h x (List.mem_cons_of_mem c hx)
    rcases hw : truthyWebsite c with _ | _
    · have hnone : process_company env c = none :=
        process_company_none_of_not_truthy env c hw
      rw [List.filterMap_cons_none hnone, List.countP_cons]
      simp [hw, ih hr]
    · have hs : (process_company env c).isSome = true := by
        rw [process_company_isSome, hw, hc]; rfl
      obtain ⟨l0, hl0⟩ := Option.isSome_iff_exists.mp hs
      rw [List.filterMap_cons_some hl0, List.countP_cons]
      simp [hw, ih hr]

/-- C3 counterexample: with directory result `[noWebCo, acme]` (a
website-less company first), `max_leads = 1` and every stage succeeding,
the output is empty although `min 1 (number of results with non-empty
website) = 1` — the truncation happens before the website filter, so the
claimed length formula fails even without any per-company failure. -/
theorem c3_output_length_counterexample :
    (∃ out, process_leads (okEnv [noWebCo, acme]) crit0 1 = .ok out ∧
      out.length ≠ min 1 (([noWebCo, acme]).countP
        (fun c => truthyWebsite c))) ∧
    (∀ c ∈ [noWebCo, acme],
      stage_failure (okEnv [noWebCo, acme]) c = false) := by
  exact ⟨⟨[], by rfl, by decide⟩, by decide⟩

/-- C3 (amended): when no company among the first `max_leads` directory
entries hits an unrecoverable stage error, the output length equals the
number of companies *among those first `max_leads` entries* whose website
is non-empty (not `min(max_leads, count over the whole directory list)`). -/
theorem c3_output_length (env : PipelineEnv) (criteria : SearchCriteria)
    (n : Nat) (companies : List Company) (out : List Lead)
    (h1 : env.find_companies criteria = .ok companies)
    (h2 : process_leads env criteria n = .ok out)
    (h3 : ∀ c ∈ companies.take n, stage_failure env c = false) :
    out.length = (companies.take n).countP (fun c => truthyWebsite c) := by
  have hout := process_leads_ok env criteria n companies h1
  rw [h2] at hout
  rw [Except.ok.inj hout]
  exact filterMap_length_eq_countP env (companies.take n) h3

theorem c3_output_length_witness :
    ([leadAcme] : List Lead).length
      = ([acme, beta].take 1).countP (fun c => truthyWebsite c) :=
  c3_output_length (okEnv [acme, beta]) crit0 1 [acme, beta] [leadAcme]
    rfl (by rfl) (by decide)

/-- The environment with the contact-directory oracle overridden at one
website.  Comparing a run against the override `Except.ok []` expresses
that a contact-lookup error behaves exactly like a zero-contact result. -/
def setContacts (env : PipelineEnv) (w : String)
    (r : Except PyExc (List ContactInfo)) : PipelineEnv :=
  { env with get_all_contacts := fun w0 =>
      if w0 = w then r else env.get_all_contacts w0 }

lemma process_company_setContacts_ok_nil (env : PipelineEnv) (w : String)
    (e : PyExc) (h : env.get_all_contacts w = .error e) (c : Company) :
    process_company env c = process_company (setContacts env w (.ok [])) c := by
  unfold process_company setContacts
  by_cases hww : websiteStr c = w
  · rw [hww, h]
    simp
  · simp [hww]

lemma process_company_contacts_err_empty (env : PipelineEnv) (c : Company)
    (e : PyExc) (h : env.get_all_contacts (websiteStr c) = .error e)
    (l : Lead) (hl : process_company env c = some l) : l.contacts = [] := by
  unfold process_company at hl
  by_cases hw : truthyWebsite c
  · simp [hw] at hl
    rcases hs : env.scrape_website (websiteStr c) with e2 | ins <;>
      rw [hs] at hl
    · simp at hl
    · rw [h] at hl
      simp at hl
      rcases hg : env.generate_message c ins with e3 | m <;> rw [hg] at hl
      · simp at hl
      · simp at hl
        rw [← hl]
  · simp [hw] at hl

/-- C5: contact-lookup degradation.  If the contact-directory call for a
website raises any exception, the whole pipeline run is identical to the
run in which that call instead returned zero contacts — so a lead is
still produced for the affected company whenever its other stages
succeed, and every other company's result (order and content) is
untouched — and any lead produced for a company with that website
carries an empty contact list. -/
theorem c5_contact_lookup_degradation (env : PipelineEnv)
    (criteria : SearchCriteria) (n : Nat) (w : String) (e : PyExc)
    (h : env.get_all_contacts w = .error e) :
    process_leads env criteria n
      = process_leads (setContacts env w (.ok [])) criteria n ∧
    (∀ c : Company, websiteStr c = w → ∀ l : Lead,
      process_company env c = some l → l.contacts = []) := by
  constructor
  · have hfun : process_company env
        = process_company (setContacts env w (.ok [])) :=
      funext (fun c => process_company_setContacts_ok_nil env w e h c)
    unfold process_leads
    rcases hf : env.find_companies criteria with e2 | companies
    · have : (setContacts env w (.ok [])).find_companies criteria
          = .error e2 := hf
      rw [this]
    · have : (setContacts env w (.ok [])).find_companies criteria
          = .ok companies := hf
      rw [this]
      by_cases hc : companies.isEmpty <;> simp [hc, hfun]
  · intro c hwc l hl
    refine process_company_contacts_err_empty env c e ?_ l hl
    rw [hwc, h]

/-- An environment in which the contact directory always raises. -/
def envContactsFail : PipelineEnv :=
  { find_companies := fun _ => .ok [acme]
    scrape_website := fun _ => .ok insightsA
    get_all_contacts := fun _ => .error (.hunterError "rate limit exceeded")
    generate_message := fun _ _ => .ok messageA }

theorem c5_contact_lookup_degradation_witness :
    (process_leads envContactsFail crit0 1
      = process_leads (setContacts envContactsFail "acme.com" (.ok []))
          crit0 1) ∧
    process_leads envContactsFail crit0 1 = .ok [leadAcme] :=
  ⟨(c5_contact_lookup_degradation envContactsFail crit0 1 "acme.com"
      (.hunterError "rate limit exceeded") rfl).1, by rfl⟩

/-- `Config` from `src/utils/config.py`, restricted to the field the
persistence path reads. -/
structure Config where
  google_sheets_endpoint : Option String
deriving DecidableEq, Repr

/-- Outcome of the `requests.post` to the Google Apps Script endpoint in
`_save_to_google_sheets`: the exception classes its `except` arms
distinguish, or a response with its HTTP status and the parsed
`success` flag (`none` models a body whose JSON parsing raised). -/
inductive SheetsOutcome where
  | timeout
  | requestError (msg : String)
  | otherError (msg : String)
  | response (status : Nat) (success : Option Bool)
deriving DecidableEq, Repr

/-- `LeadEnrichmentPipeline._save_to_google_sheets`
(`src/pipeline/enrichment.py` lines 234-282): returns `false` when no
endpoint is configured; `Timeout`, `RequestException` and every other
exception are caught and yield `false`; a response yields `true` exactly
when the status is 200 and the parsed body carries `success = true`. -/
def save_to_google_sheets (endpoint : Option String)
    (outcome : SheetsOutcome) : Bool :=
  match endpoint with
  | none => false
  | some _ =>
    match outcome with
    | .timeout => false
    | .requestError _ => false
    | .otherError _ => false
    | .response status success =>
      if status = 200 then
        match success with
        | some b => b
        | none => false
      else false

/-- One element of the local JSON snapshot written by
`save_leads_to_file` (lines 206-221): nested company, full insight
record, message, contacts, and a generation timestamp. -/
structure FullLeadRecord where
  company : Company
  insights : CompanyInsights
  personalized_message : List Char
  contacts : List ContactInfo
  generated_at : String
deriving DecidableEq, Repr

def fullLeadRecord (now : String) (l : Lead) : FullLeadRecord :=
  { company := l.company
    insights := l.insights
    personalized_message := l.personalized_message
    contacts := l.contacts
    generated_at := now }

/-- The observable effects of `LeadEnrichmentPipeline.save_leads_to_file`
(`src/pipeline/enrichment.py` lines 126-232): whether the remote append
was attempted and succeeded, the local file path and its full contents,
and the function's return value. -/
structure SaveOutcome where
  sheets_attempted : Bool
  sheets_success : Bool
  local_path : String
  local_data : List FullLeadRecord
  return_value : String
deriving DecidableEq, Repr

/-- `LeadEnrichmentPipeline.save_leads_to_file`: best-effort remote
append (attempted only when an endpoint is configured, every exception
caught), then the unconditional local JSON write of the full lead data
to the explicit filename — a falsy (absent or empty) filename falls back
to the timestamp-keyed default path — and finally the return value:
the combined descriptor when the remote append succeeded, otherwise the
local path. -/
def save_leads_to_file (cfg : Config) (outcome : SheetsOutcome)
    (leads : List Lead) (filename : Option String)
    (timestamp now : String) : SaveOutcome :=
  let sheets_success :=
    if cfg.google_sheets_endpoint.isSome then
      save_to_google_sheets cfg.google_sheets_endpoint outcome
    else false
  let default_path := "data/output/leads_" ++ timestamp ++ ".json"
  let fname :=
    match filename with
    | none => default_path
    | some f => if f.isEmpty then default_path else f
  { sheets_attempted := cfg.google_sheets_endpoint.isSome
    sheets_success := sheets_success
    local_path := fname
    local_data := leads.map (fullLeadRecord now)
    return_value :=
      if sheets_success then "Google Sheets + Local Backup" else fname }

/-- C6: dual-write persistence.  For every non-empty lead list: the
complete local snapshot is always written; the local path and contents
do not depend on the remote outcome; the return value is the combined
remote+local descriptor exactly when the remote append succeeded and the
local path otherwise; and the remote attempt absorbs timeouts and
request errors (they yield `false`, they are never raised). -/
theorem c6_dual_write_persistence (cfg : Config) (o1 o2 : SheetsOutcome)
    (leads : List Lead) (filename : Option String) (timestamp now : String)
    (hne : leads ≠ []) :
    ((save_leads_to_file cfg o1 leads filename timestamp now).local_data
        = leads.map (fullLeadRecord now)) ∧
    ((save_leads_to_file cfg o1 leads filename timestamp now).local_path
        = (save_leads_to_file cfg o2 leads filename timestamp now).local_path
      ∧ (save_leads_to_file cfg o1 leads filename timestamp now).local_data
        = (save_leads_to_file cfg o2 leads filename timestamp now).local_data) ∧
    ((save_leads_to_file cfg o1 leads filename timestamp now).sheets_success
        = true →
      (save_leads_to_file cfg o1 leads filename timestamp now).return_value
        = "Google Sheets + Local Backup") ∧
    ((save_leads_to_file cfg o1 leads filename timestamp now).sheets_success
        = false →
      (save_leads_to_file cfg o1 leads filename timestamp now).return_value
        = (save_leads_to_file cfg o1 leads filename timestamp now).local_path) ∧
    (∀ m, save_to_google_sheets cfg.google_sheets_endpoint
        (.requestError m) = false) ∧
    save_to_google_sheets cfg.google_sheets_endpoint .timeout = false := by
  refine ⟨rfl, ⟨rfl, rfl⟩, ?_, ?_, ?_, ?_⟩
  · intro hs
    simp only [save_leads_to_file] at hs ⊢
    rw [hs]
    simp
  · intro hs
    simp only [save_leads_to_file] at hs ⊢
    rw [hs]
    simp
  · intro m
    rcases cfg.google_sheets_endpoint with _ | ep <;> rfl
  · rcases cfg.google_sheets_endpoint with _ | ep <;> rfl

def cfgA : Config := { google_sheets_endpoint := some "https://script.google.com/x" }

theorem c6_dual_write_persistence_witness :
    ((save_leads_to_file cfgA (.response 500 none) [leadAcme] none
        "20250101_000000" "2025-01-01T00:00:00").local_data
      = [leadAcme].map (fullLeadRecord "2025-01-01T00:00:00")) ∧
    ((save_leads_to_file cfgA (.response 500 none) [leadAcme] none
        "20250101_000000" "2025-01-01T00:00:00").return_value
      = (save_leads_to_file cfgA (.response 500 none) [leadAcme] none
        "20250101_000000" "2025-01-01T00:00:00").local_path) :=
  ⟨(c6_dual_write_persistence cfgA (.response 500 none) (.response 200 (some true))
      [leadAcme] none "20250101_000000" "2025-01-01T00:00:00" (by simp)).1,
   (c6_dual_write_persistence cfgA (.response 500 none) (.response 200 (some true))
      [leadAcme] none "20250101_000000" "2025-01-01T00:00:00"
      (by simp)).2.2.2.1 (by rfl)⟩

/-- The hardware-opportunity category derivation appearing twice in
`src/pipeline/enrichment.py` (lines 163-167 in `save_leads_to_file` and
lines 312-316 in `display_leads_summary`): an empty list to which each
category name is appended when its flag is true, in declaration order. -/
def hardwareCategories (h : HardwareNeeds) : List String :=
  (if h.workstations then ["Workstations"] else [])
    ++ (if h.servers then ["Servers"] else [])
    ++ (if h.networking then ["Networking"] else [])
    ++ (if h.storage then ["Storage"] else [])
    ++ (if h.peripherals then ["Peripherals"] else [])

/-- The specification's reading of the category derivation: keep, in the
fixed declaration order, exactly the names whose flag is true. -/
def specHardwareCategories (h : HardwareNeeds) : List String :=
  ([(h.workstations, "Workstations"), (h.servers, "Servers"),
    (h.networking, "Networking"), (h.storage, "Storage"),
    (h.peripherals, "Peripherals")]).filterMap
    (fun p => if p.1 then some p.2 else none)

/-- C7: the derived category list is exactly the names of the true flags
in declaration order (workstations, servers, networking, storage,
peripherals); in particular the flag set with only workstations and
networking true yields exactly `["Workstations", "Networking"]`. -/
theorem c7_hardware_categories :
    (∀ h : HardwareNeeds, hardwareCategories h = specHardwareCategories h)
    ∧ hardwareCategories
        { workstations := true, servers := false, networking := true,
          storage := false, peripherals := false }
        = ["Workstations", "Networking"] := by
  constructor
  · intro h
    rcases h with ⟨w, s, n, st, p⟩
    rcases w <;> rcases s <;> rcases n <;> rcases st <;> rcases p <;> rfl
  · rfl

/-- Python whitespace as stripped by `str.strip()` (ASCII range). -/
def isPyWs (c : Char) : Bool :=
  c = ' ' || c = '\t' || c = '\n' || c = '\r' || c = '\x0b' || c = '\x0c'

/-- Python `str.strip()`: drop leading and trailing whitespace. -/
def pyStrip (l : List Char) : List Char :=
  ((l.dropWhile isPyWs).reverse.dropWhile isPyWs).reverse

/-- Python `str.split('\n')`: always at least one piece; a separator at
the end contributes a trailing empty piece. -/
def splitNl : List Char → List (List Char)
  | [] => [[]]
  | c :: rest =>
    if c = '\n' then [] :: splitNl rest
    else (c :: (splitNl rest).headI) :: (splitNl rest).tail

/-- Python `str.startswith(pat)`: `startsWithC pat l` holds when `l`
begins with `pat`. -/
def startsWithC : List Char → List Char → Bool
  | [], _ => true
  | _ :: _, [] => false
  | p :: ps, c :: cs => p = c && startsWithC ps cs

/-- Worker for `pyReplace`: scans left to right; a positive `skip`
records pattern characters still to consume after a replacement. -/
def pyReplaceGo (pat repl : List Char) : List Char → Nat → List Char
  | [], _ => []
  | _ :: rest, Nat.succ k => pyReplaceGo pat repl rest k
  | c :: rest, 0 =>
    if startsWithC pat (c :: rest) && !pat.isEmpty then
      repl ++ pyReplaceGo pat repl rest (pat.length - 1)
    else c :: pyReplaceGo pat repl rest 0

/-- Python `str.replace(pat, repl)` for a non-empty pattern:
left-to-right, non-overlapping replacement of every occurrence. -/
def pyReplace (pat repl l : List Char) : List Char :=
  pyReplaceGo pat repl l 0

/-- Whether `pat` occurs as a contiguous subsequence of `l`. -/
def containsSeq (pat : List Char) : List Char → Bool
  | [] => pat.isEmpty
  | c :: rest => startsWithC pat (c :: rest) || containsSeq pat rest

/-- The literal scanned for by `_extract_subject_line`. -/
def subjectMarker : List Char := ("Subject:").toList

/-- `LeadEnrichmentPipeline._extract_subject_line` from
`src/pipeline/enrichment.py` lines 339-345: split the message on
newlines, return the first line starting with `Subject:` with that
literal removed and the result stripped, or the sentinel `N/A`. -/
def extract_subject_line (email_message : List Char) : List Char :=
  match (splitNl email_message).find?
      (fun line => startsWithC subjectMarker line) with
  | some line => pyStrip (pyReplace subjectMarker [] line)
  | none => ("N/A").toList

lemma startsWithC_append_self (p l : List Char) :
    startsWithC p (p ++ l) = true := by
  induction p with
  | nil => rfl
  | cons c ps ih => simp [startsWithC, ih]

lemma pyReplaceGo_no_occurrence (pat repl l : List Char)
    (h : containsSeq pat l = false) : pyReplaceGo pat repl l 0 = l := by
  induction l with
  | nil => rfl
  | cons c rest ih =>
    unfold containsSeq at h
    rw [Bool.or_eq_false_iff] at h
    unfold pyReplaceGo
    rw [h.1]
    simp [ih h.2]

lemma pyReplaceGo_skip (pat repl xs l : List Char) :
    pyReplaceGo pat repl (xs ++ l) xs.length = pyReplaceGo pat repl l 0 := by
  induction xs with
  | nil => rfl
  | cons c xs ih => simpa [pyReplaceGo] using ih

lemma pyReplaceGo_cons_zero (pat repl : List Char) (c : Char)
    (rest : List Char) :
    pyReplaceGo pat repl (c :: rest) 0 =
      if startsWithC pat (c :: rest) && !pat.isEmpty then
        repl ++ pyReplaceGo pat repl rest (pat.length - 1)
      else c :: pyReplaceGo pat repl rest 0 := rfl

lemma pyReplace_append_self (pat repl l : List Char) (hp : pat ≠ []) :
    pyReplace pat repl (pat ++ l) = repl ++ pyReplace pat repl l := by
  cases pat with
  | nil => exact absurd rfl hp
  | cons p ps =>
    show pyReplaceGo (p :: ps) repl (p :: (ps ++ l)) 0 = _
    rw [pyReplaceGo_cons_zero,
      show p :: (ps ++ l) = (p :: ps) ++ l from rfl,
      startsWithC_append_self]
    simp [pyReplace, pyReplaceGo_skip]

lemma splitNl_append (xs ys : List Char) (h : '\n' ∉ xs) :
    splitNl (xs ++ '\n' :: ys) = xs :: splitNl ys := by
  induction xs with
  | nil => simp [splitNl]
  | cons c xs ih =>
    have hc : ¬ c = '\n' := fun hh => h (hh ▸ List.mem_cons_self c xs)
    have hxs : '\n' ∉ xs := fun hh => h (List.mem_cons_of_mem c hh)
    simp [splitNl, hc, ih hxs]

lemma pyStrip_cons_space (s : List Char) : pyStrip (' ' :: s) = pyStrip s := by
  unfold pyStrip
  rw [List.dropWhile_cons_of_pos (by decide)]

/-- C8: subject-line extraction scans the body's lines in order and the
first line starting with the literal `Subject:` wins; a body containing
the line `Subject: Hardware Solutions for Acme Inc` yields
`Hardware Solutions for Acme Inc`; when no line starts with the literal,
the sentinel `N/A` is returned rather than an error. -/
theorem c8_subject_line_extraction :
    extract_subject_line
        (("Hi team\nSubject: Hardware Solutions for Acme Inc\nBody text").toList)
      = ("Hardware Solutions for Acme Inc").toList ∧
    extract_subject_line (("Subject: First\nSubject: Second").toList)
      = ("First").toList ∧
    (∀ msg : List Char,
      (splitNl msg).all (fun line => !startsWithC subjectMarker line) →
      extract_subject_line msg = ("N/A").toList) ∧
    extract_subject_line (("Hello there\nno subject here").toList)
      = ("N/A").toList := by
  refine ⟨by decide, by decide, ?_, by decide⟩
  intro msg h
  have hnone : (splitNl msg).find?
      (fun line => startsWithC subjectMarker line) = none := by
    rw [List.find?_eq_none]
    intro x hx
    have := List.all_eq_true.mp h x hx
    simp at this
    simp [this]
  unfold extract_subject_line
  rw [hnone]

theorem c8_subject_line_extraction_witness :
    ((splitNl (("Hello there\nno subject here").toList)).all
        (fun line => !startsWithC subjectMarker line)) = true ∧
    extract_subject_line (("Hello there\nno subject here").toList)
      = ("N/A").toList :=
  ⟨by decide, c8_subject_line_extraction.2.2.1
    (("Hello there\nno subject here").toList) (by decide)⟩

/-- C9: round-trip of formatting and subject extraction.  For every
outreach message whose subject line contains no newline and no
occurrence of the literal `Subject:`, extracting the subject from the
formatted email body returns exactly the subject line stripped of
leading and trailing whitespace (the first body line is the subject
line, so the `N/A` branch is never taken). -/
theorem c9_format_extract_roundtrip (m : OutreachMessage)
    (h1 : '\n' ∉ m.subject_line)
    (h2 : containsSeq subjectMarker m.subject_line = false) :
    extract_subject_line (format_email m) = pyStrip m.subject_line := by
  have hys : format_email m
      = (subjectMarker ++ (' ' :: m.subject_line))
        ++ '\n' :: ('\n' :: (m.greeting
          ++ ("\n\n").toList ++ m.opening
          ++ ("\n\n").toList ++ m.value_proposition
          ++ ("\n\n").toList ++ m.specific_offer
          ++ ("\n\n").toList ++ m.call_to_action
          ++ ("\n\n").toList ++ m.closing
          ++ signatureBlock)) := by
    have e1 : ("Subject: ").toList = subjectMarker ++ [' '] := by decide
    have e2 : ("\n\n").toList = ['\n', '\n'] := by decide
    rw [format_email, e1, e2]
    simp [List.append_assoc]
  have hx : '\n' ∉ subjectMarker ++ (' ' :: m.subject_line) := by
    intro hm
    rcases List.mem_append.mp hm with hma | hmb
    · exact absurd hma (by decide)
    · rcases List.mem_cons.mp hmb with hsp | hmem
      · exact absurd hsp (by decide)
      · exact h1 hmem
  unfold extract_subject_line
  rw [hys, splitNl_append _ _ hx,
    List.find?_cons_of_pos _ (startsWithC_append_self subjectMarker
      (' ' :: m.subject_line))]
  show pyStrip (pyReplace subjectMarker []
      (subjectMarker ++ (' ' :: m.subject_line))) = pyStrip m.subject_line
  rw [pyReplace_append_self _ _ _ (by decide)]
  have hno : containsSeq subjectMarker (' ' :: m.subject_line) = false := by
    unfold containsSeq
    rw [Bool.or_eq_false_iff]
    exact ⟨rfl, h2⟩
  rw [show pyReplace subjectMarker [] (' ' :: m.subject_line)
      = ' ' :: m.subject_line from pyReplaceGo_no_occurrence _ _ _ hno]
  simp only [List.nil_append]
  exact pyStrip_cons_space m.subject_line

theorem c9_format_extract_roundtrip_witness :
    extract_subject_line (format_email messageA)
      = pyStrip messageA.subject_line ∧
    pyStrip messageA.subject_line = ("Hardware for Acme").toList :=
  ⟨c9_format_extract_roundtrip messageA (by decide) (by decide), by decide⟩

/-- Python `str.split('-')`: split on every dash, keeping empty pieces. -/
def splitDash : List Char → List (List Char)
  | [] => [[]]
  | c :: rest =>
    if c = '-' then [] :: splitDash rest
    else (c :: (splitDash rest).headI) :: (splitDash rest).tail

/-- Digit-and-underscore tail of Python `int()` literal parsing: after a
leading digit, single underscores are allowed only between digits. -/
def digitsAuxC : List Char → Nat → Option Nat
  | [], acc => some acc
  | c :: rest, acc =>
    if c.isDigit then digitsAuxC rest (acc * 10 + (c.toNat - 48))
    else if c = '_' then
      match rest with
      | [] => none
      | d :: rest2 =>
        if d.isDigit then digitsAuxC rest2 ((acc * 10 + (d.toNat - 48)))
        else none
    else none

/-- Nonempty digit sequence (with grouping underscores) to a number. -/
def pyIntDigits? : List Char → Option Nat
  | [] => none
  | c :: rest => if c.isDigit then digitsAuxC rest (c.toNat - 48) else none

/-- Python `int(str)` (ASCII): surrounding whitespace stripped, optional
sign, then digits with single grouping underscores; anything else raises
`ValueError`, modelled as `none`. -/
def pyIntC? (l : List Char) : Option Int :=
  match pyStrip l with
  | '+' :: ds => (pyIntDigits? ds).map (fun n => (n : Int))
  | '-' :: ds => (pyIntDigits? ds).map (fun n => -(n : Int))
  | ds => (pyIntDigits? ds).map (fun n => (n : Int))

/-- The size parse in `ApolloService.find_companies`
(`size_min, size_max = map(int, company_size.split("-"))`): succeeds
exactly when the split yields two pieces and both parse as integers;
`none` models the `ValueError` of a failed parse or unpacking. -/
def parse_size (company_size : String) : Option (Int × Int) :=
  match splitDash company_size.toList with
  | [a, b] =>
    match pyIntC? a, pyIntC? b with
    | some x, some y => some (x, y)
    | _, _ => none
  | _ => none

/-- The specification's size-range well-formedness predicate: the string
consists of two dash-separated integers. -/
def isDashedIntPair (s : String) : Bool :=
  match splitDash s.toList with
  | [a, b] => (pyIntC? a).isSome && (pyIntC? b).isSome
  | _ => false

/-- One Apollo organization record, with the fields the transformation
in `find_companies` reads (absent keys are `none`; only a missing `name`
raises the `KeyError` that skips the record). -/
structure ApolloOrg where
  name : Option String
  website_url : Option String := none
  estimated_num_employees : Option Int := none
  industry : Option String := none
  city : Option String := none
  state : Option String := none
  country : Option String := none
deriving DecidableEq, Repr

/-- The `Company(...)` construction of `find_companies`: `.get` defaults
for every field except the required `name`. -/
def orgToCompany (org : ApolloOrg) : Option Company :=
  org.name.map (fun nm =>
    { name := nm
      website := some (org.website_url.getD "")
      employee_count := some (org.estimated_num_employees.getD 0)
      industry := some (org.industry.getD "")
      location := some ((org.city.getD "") ++ ", " ++ (org.state.getD "")
        ++ ", " ++ (org.country.getD "")) })

/-- Parsed body of a (status-checked) Apollo search response: whether the
`organizations` key is present, its list, and the `error` field used in
the failure message. -/
structure ApolloData where
  hasOrganizations : Bool
  organizations : List ApolloOrg
  errorMsg : String := ""
deriving DecidableEq, Repr

/-- Outcome of one `ApolloService.find_companies` call: whether the
search request was issued at all, and the returned companies or the
raised exception. -/
structure FindOutcome where
  requestSent : Bool
  result : Except PyExc (List Company)

/-- `ApolloService.find_companies` from `src/services/apollo_service.py`
(lines 56-109): the size range is parsed before anything else, and a
parse failure raises `ValueError` without issuing the search request
(the outer `except ValueError` arm); afterwards the request outcome
`http` decides between the transformed company list and an
`ApolloApiError`.  Request-level exceptions and response-parse errors
are wrapped into `ApolloApiError`. -/
def apollo_find_companies (company_size industry : String)
    (location : Option String) (http : Except PyExc ApolloData) :
    FindOutcome :=
  match parse_size company_size with
  | none =>
    { requestSent := false
      result := .error (.valueError
        ("Invalid company size format. Expected format: min-max, got: "
          ++ company_size)) }
  | some _ =>
    { requestSent := true
      result :=
        match http with
        | .error e =>
          .error (.apolloApiError ("Apollo API request failed: "
            ++ e.message))
        | .ok data =>
          if data.hasOrganizations then
            .ok (data.organizations.filterMap orgToCompany)
          else
            .error (.apolloApiError ("Apollo API error: "
              ++ data.errorMsg)) }

/-- The pipeline environment whose directory client is the Apollo model
(the other three collaborators stay abstract). -/
def apolloPipelineEnv (http : Except PyExc ApolloData)
    (scrape : String → Except PyExc CompanyInsights)
    (contacts : String → Except PyExc (List ContactInfo))
    (gen : Company → CompanyInsights → Except PyExc OutreachMessage) :
    PipelineEnv :=
  { find_companies := fun crit =>
      (apollo_find_companies crit.size_range crit.industry crit.location
        http).result
    scrape_website := scrape
    get_all_contacts := contacts
    generate_message := gen }

lemma parse_size_eq_none (s : String) (h : isDashedIntPair s = false) :
    parse_size s = none := by
  unfold parse_size
  unfold isDashedIntPair at h
  rcases hsp : splitDash s.toList with _ | ⟨a, _ | ⟨b, _ | ⟨c, rest⟩⟩⟩
  · rfl
  · rfl
  · rcases hA : pyIntC? a with _ | x <;> rcases hB : pyIntC? b with _ | y <;>
      simp_all
  · rfl

/-- C10: a `company_size` that is not two dash-separated integers makes
`find_companies` raise `ValueError` before any search request is issued,
and makes `process_leads` (with Apollo as its directory client) fail with
the pipeline-level `EnrichmentError` wrapping that message, before any
company is processed. -/
theorem c10_malformed_size_range (company_size industry : String)
    (location : Option String) (http : Except PyExc ApolloData)
    (h : isDashedIntPair company_size = false) :
    (apollo_find_companies company_size industry location http).requestSent
      = false ∧
    (apollo_find_companies company_size industry location http).result
      = .error (.valueError
          ("Invalid company size format. Expected format: min-max, got: "
            ++ company_size)) ∧
    (∀ scrape contacts gen (criteria : SearchCriteria) (n : Nat),
      criteria.size_range = company_size →
      process_leads (apolloPipelineEnv http scrape contacts gen) criteria n
        = .error ⟨"Pipeline failed: "
            ++ ("Invalid company size format. Expected format: min-max, got: "
              ++ company_size)⟩) := by
  have hp := parse_size_eq_none company_size h
  refine ⟨?_, ?_, ?_⟩
  · simp [apollo_find_companies, hp]
  · simp [apollo_find_companies, hp]
  · intro scrape contacts gen criteria n hcrit
    unfold process_leads apolloPipelineEnv
    simp [apollo_find_companies, hcrit, hp, PyExc.message]

theorem c10_malformed_size_range_witness :
    isDashedIntPair "50 to 200" = false ∧
    (apollo_find_companies "50 to 200" "software" (some "india")
      (.ok { hasOrganizations := true, organizations := [] })).requestSent
      = false :=
  ⟨by decide,
    (c10_malformed_size_range "50 to 200" "software" (some "india")
      (.ok { hasOrganizations := true, organizations := [] })
      (by decide)).1⟩
